import Mathlib

/-!
Verification of the handle-lifecycle and execution-scheduling subsystem of the
cuda-api-wrappers library: a shallow embedding of the proxy classes in
`event.hpp`, `kernel.hpp` and `nvrtc/program.hpp`, together with theorems
settling the specified ownership, context-discipline, event-query, artifact
and occupancy properties.
-/

namespace CudaApiWrappers

/-- Status codes returned by the CUDA driver API (`CUresult`): success, the
well-defined not-ready condition, or any other (error) code. -/
inductive CUresult where
  | success
  | notReady
  | errorCode (code : Nat)
  deriving DecidableEq, Repr

/-- Status codes returned by the NVRTC library (`nvrtcResult`): success, the
invalid-program condition (reported in particular when an artifact size is
queried on a program with no such artifact), or any other (error) code. -/
inductive NvrtcStatus where
  | success
  | invalidProgram
  | errorCode (code : Nat)
  deriving DecidableEq, Repr

/-- The faults the wrapper layer can raise: a native status wrapped into
`cuda::runtime_error` / `cuda::rtc::runtime_error` by `throw_if_error`, plus
the standard-library exception types thrown directly by the wrapper code. -/
inductive CudaError where
  | cuStatusError (status : CUresult) (msg : String)
  | nvrtcStatusError (status : NvrtcStatus) (msg : String)
  | invalidArgument (msg : String)
  | logicError (msg : String)
  deriving DecidableEq, Repr

/-- Modelled from the spec: `cuda::throw_if_error` (declared in `error.hpp`,
which is not among the analyzed sources) interprets a status code, returning
normally on success and otherwise raising a failure carrying the native
status code and the descriptive message. -/
def throw_if_error (status : CUresult) (msg : String) : Except CudaError Unit :=
  if status = CUresult.success then Except.ok () else Except.error (CudaError.cuStatusError status msg)

/-- Modelled from the spec: the NVRTC flavor of `throw_if_error` (declared in
`nvrtc/error.hpp`, not among the analyzed sources); returns normally on
success and otherwise raises a failure carrying the native status. -/
def throw_if_error_nvrtc (status : NvrtcStatus) (msg : String) : Except CudaError Unit :=
  if status = NvrtcStatus.success then Except.ok () else Except.error (CudaError.nvrtcStatusError status msg)

abbrev Handle := Nat
abbrev DeviceId := Nat
abbrev ContextHandle := Nat

/-- Rendering of a raw handle for identity strings (`cuda::detail_::ptr_as_hex`). -/
def ptr_as_hex (h : Handle) : String := toString h

/-- The event proxy (`event_t`, event.hpp): raw handle plus device id and
context handle, and the ownership flag. -/
structure event_t where
  device_id_ : DeviceId
  context_handle_ : ContextHandle
  handle_ : Handle
  owning : Bool
  deriving DecidableEq, Repr

/-- Identity string of an event (`event::detail_::identify`); the exact format
is unspecified, only its dependence on handle, context and device. -/
def event_identify (e : event_t) : String :=
  "event " ++ ptr_as_hex e.handle_ ++ " on context " ++ toString e.context_handle_
    ++ " on device " ++ toString e.device_id_

/-- Copy constructor `event_t(const event_t&)` (event.hpp line 211): delegates
to the protected constructor with `take_ownership = false`. -/
def event_t.copy (other : event_t) : event_t :=
  { device_id_ := other.device_id_
    context_handle_ := other.context_handle_
    handle_ := other.handle_
    owning := false }

/-- Move constructor `event_t(event_t&&)` (event.hpp lines 213-217): the target
takes all fields including the owning flag, then `other.owning = false`.
Returns (constructed target, source after the move). -/
def event_t.move (other : event_t) : event_t × event_t :=
  ({ device_id_ := other.device_id_
     context_handle_ := other.context_handle_
     handle_ := other.handle_
     owning := other.owning },
   { other with owning := false })

/-- Destructor of `event_t` (event.hpp lines 219-226): calls `cuEventDestroy`
iff owning, discarding any status the release reports. The first component is
what the destructor raises (always nothing); the second records whether the
native release was invoked. -/
def event_t.destruct (e : event_t) (_releaseStatus : CUresult) : Except CudaError Unit × Bool :=
  if e.owning then (Except.ok (), true) else (Except.ok (), false)

/-- `event::wrap` (event.hpp lines 268-275): named constructor over a
pre-existing handle; ownership only when requested. -/
def event.wrap (device_id : DeviceId) (context_handle : ContextHandle)
    (event_handle : Handle) (take_ownership : Bool) : event_t :=
  { device_id_ := device_id, context_handle_ := context_handle
    handle_ := event_handle, owning := take_ownership }

/-- The runtime-compiled program proxy (`program_t`, nvrtc/program.hpp):
compiler-owned handle, human-readable name, ownership flag. -/
structure program_t where
  handle_ : Handle
  name_ : String
  owning_ : Bool
  deriving DecidableEq, Repr

/-- Identity string of a program (`program::detail_::identify`). -/
def program_identify (p : program_t) : String :=
  "program " ++ p.name_ ++ " at " ++ ptr_as_hex p.handle_

/-- Move constructor `program_t(program_t&&)` (nvrtc/program.hpp lines
309-313): target copies handle, name and owning flag; then
`other.owning_ = false`. Returns (constructed target, source after move). -/
def program_t.move (other : program_t) : program_t × program_t :=
  ({ handle_ := other.handle_, name_ := other.name_, owning_ := other.owning_ },
   { other with owning_ := false })

/-- Destructor of `program_t` (nvrtc/program.hpp lines 315-321): iff owning,
calls `nvrtcDestroyProgram` and passes the resulting status to
`throw_if_error` - so, unlike the event destructor, a failed release is
raised, not swallowed. First component: what the destructor raises; second:
whether the native release was invoked. -/
def program_t.destruct (p : program_t) (releaseStatus : NvrtcStatus) : Except CudaError Unit × Bool :=
  if p.owning_ then
    (throw_if_error_nvrtc releaseStatus "Destroying an NVRTC program", true)
  else (Except.ok (), false)

/-- The kernel proxy (`kernel_t`, kernel.hpp): non-owning wrapper holding a
device id, a context handle and the raw function handle; it has no ownership
flag at all. -/
structure kernel_t where
  device_id_ : DeviceId
  context_handle_ : ContextHandle
  handle_ : Handle
  deriving DecidableEq, Repr

/-- Copy constructor of `kernel_t` (kernel.hpp line 231, `= default`): copies
every field. -/
def kernel_t.copy (other : kernel_t) : kernel_t := other

/-- The three proxy types of the analyzed sources. -/
inductive ProxyType where
  | event
  | program
  | kernel
  deriving DecidableEq, Repr

/-- Translated from the copy-constructor declarations: `event_t` declares a
usable copy constructor (event.hpp line 211), `program_t` deletes its copy
constructor (nvrtc/program.hpp line 307), `kernel_t` defaults its copy
constructor (kernel.hpp line 231). -/
def copyConstructible : ProxyType → Bool
  | ProxyType.event => true
  | ProxyType.program => false
  | ProxyType.kernel => true

/-- Claim C1 (counterexample): the claim says a failed release is swallowed by
the destructor of every owning proxy; but the destructor of an owning
`program_t` raises the failure (it passes the status of
`nvrtcDestroyProgram` to `throw_if_error`), as this concrete evaluation
shows. -/
theorem spec_C1_counterexample :
    (program_t.destruct { handle_ := 0, name_ := "prog", owning_ := true }
        (NvrtcStatus.errorCode 1)).1
      = Except.error (CudaError.nvrtcStatusError (NvrtcStatus.errorCode 1)
          "Destroying an NVRTC program") := by
  rfl

/-- Claim C1 (amended): for both proxies the destructor invokes the native
release iff the proxy is owning; the event destructor swallows any release
failure, while the program destructor passes the release status to
`throw_if_error`, hence raises exactly when an owning release fails. -/
theorem spec_C1_destructor_release :
    ∀ (e : event_t) (p : program_t) (rs : CUresult) (ns : NvrtcStatus),
      (event_t.destruct e rs).2 = e.owning ∧
      (event_t.destruct e rs).1 = Except.ok () ∧
      (program_t.destruct p ns).2 = p.owning_ ∧
      (program_t.destruct p ns).1
        = (if p.owning_ then throw_if_error_nvrtc ns "Destroying an NVRTC program"
           else Except.ok ()) := by
  intro e p rs ns
  cases he : e.owning <;> cases hp : p.owning_ <;>
    simp [event_t.destruct, program_t.destruct, he, hp]

/-- Claim C2: after a move, destroying the moved-from proxy does not release
the native resource, and destroying the move target releases it exactly once;
this holds for both the event and the program proxy. -/
theorem spec_C2_move_unique_release :
    ∀ (e : event_t) (p : program_t) (rs : CUresult) (ns : NvrtcStatus),
      e.owning = true → p.owning_ = true →
      (((event_t.move e).2.destruct rs).2 = false ∧
       ((event_t.move e).1.destruct rs).2 = true ∧
       (cond ((event_t.move e).2.destruct rs).2 1 0)
         + (cond ((event_t.move e).1.destruct rs).2 1 0) = 1) ∧
      (((program_t.move p).2.destruct ns).2 = false ∧
       ((program_t.move p).1.destruct ns).2 = true ∧
       (cond ((program_t.move p).2.destruct ns).2 1 0)
         + (cond ((program_t.move p).1.destruct ns).2 1 0) = 1) := by
  intro e p rs ns he hp
  simp [event_t.move, program_t.move, event_t.destruct, program_t.destruct, he, hp]

/-- Witness for claim C2 at a concrete owning event and program. -/
theorem spec_C2_move_unique_release_witness :
    ((event_t.move { device_id_ := 0, context_handle_ := 3, handle_ := 7, owning := true }).2.destruct
        CUresult.success).2 = false ∧
    ((program_t.move { handle_ := 5, name_ := "prog", owning_ := true }).1.destruct
        NvrtcStatus.success).2 = true := by
  have h := spec_C2_move_unique_release
    { device_id_ := 0, context_handle_ := 3, handle_ := 7, owning := true }
    { handle_ := 5, name_ := "prog", owning_ := true }
    CUresult.success NvrtcStatus.success rfl rfl
  exact ⟨h.1.1, h.2.2.1⟩

/-- Claim C3 (counterexample): copy construction is not available on every
proxy type - `program_t` deletes its copy constructor. -/
theorem spec_C3_counterexample :
    ¬ (∀ t : ProxyType, copyConstructible t = true) := by
  intro h
  exact absurd (h ProxyType.program) (by decide)

/-- Claim C3 (amended): copy construction is available on the event and kernel
proxies but deleted on the program proxy; an event copy shares the handle,
device id and context handle of the source and has its owning flag false,
while a kernel copy (kernels carry no owning flag) duplicates all fields. -/
theorem spec_C3_copy_nonowning :
    ∀ (e : event_t) (k : kernel_t),
      copyConstructible ProxyType.event = true ∧
      copyConstructible ProxyType.kernel = true ∧
      copyConstructible ProxyType.program = false ∧
      (event_t.copy e).handle_ = e.handle_ ∧
      (event_t.copy e).device_id_ = e.device_id_ ∧
      (event_t.copy e).context_handle_ = e.context_handle_ ∧
      (event_t.copy e).owning = false ∧
      kernel_t.copy k = k := by
  intro e k
  refine ⟨rfl, rfl, rfl, rfl, rfl, rfl, rfl, rfl⟩

/-- The per-thread current-context slot (spec section 4.2): a single slot,
possibly empty. -/
abbrev CurrentContextSlot := Option ContextHandle

/-- The scoped override object (`context::current::detail_::scoped_override_t`):
it remembers the context that was current at its construction. -/
structure scoped_override_t where
  saved : CurrentContextSlot
  deriving DecidableEq, Repr

/-- Modelled from the spec: the constructor of `scoped_override_t` (declared in
`current_context.hpp`, which is not among the analyzed sources) saves the
currently installed context and installs the target context in the
thread-local slot. Returns the override object and the new slot. -/
def scoped_override_construct (target : ContextHandle) (slot : CurrentContextSlot) :
    scoped_override_t × CurrentContextSlot :=
  ({ saved := slot }, some target)

/-- Modelled from the spec: the destructor of `scoped_override_t` restores the
previously current context, unconditionally - whatever the slot holds at
destruction time. -/
def scoped_override_destruct (o : scoped_override_t) (_slot : CurrentContextSlot) :
    CurrentContextSlot :=
  o.saved

/-- `cuda::synchronize(const event_t&)` (event.hpp lines 350-357): installs the
event context via a scoped override, calls `cuEventSynchronize` (whose status
is given as the `syncStatus` argument) and raises on a non-success status; by
C++ scoping the override destructor runs on both the normal and the raising
exit path, before the fault propagates. Returns (raised fault or unit, slot
after return). -/
def synchronize (e : event_t) (syncStatus : CUresult) (slot : CurrentContextSlot) :
    Except CudaError Unit × CurrentContextSlot :=
  let oc := scoped_override_construct e.context_handle_ slot
  let result := throw_if_error syncStatus ("Failed synchronizing " ++ event_identify e)
  (result, scoped_override_destruct oc.1 oc.2)

abbrev attribute_value_t := Int

/-- `kernel::detail_::get_attribute_in_current_context` (kernel.hpp lines
70-83): reads the attribute via `cuFuncGetAttribute` (whose status and output
value are given as `queryResult`) and raises on a non-success status. -/
def get_attribute_in_current_context (queryResult : CUresult × attribute_value_t) :
    Except CudaError attribute_value_t :=
  match throw_if_error queryResult.1 "Failed obtaining attribute" with
  | Except.error err => Except.error err
  | Except.ok () => Except.ok queryResult.2

/-- `kernel_t::get_attribute` (kernel.hpp lines 118-122): installs the kernel
context via a scoped override, then queries the attribute in the current
context; the override destructor runs on every exit path. Returns (result or
fault, slot after return). -/
def kernel_t.get_attribute (k : kernel_t) (queryResult : CUresult × attribute_value_t)
    (slot : CurrentContextSlot) :
    Except CudaError attribute_value_t × CurrentContextSlot :=
  let oc := scoped_override_construct k.context_handle_ slot
  let result := get_attribute_in_current_context queryResult
  (result, scoped_override_destruct oc.1 oc.2)

/-- Claim C4: every operation wrapped in a scoped context override restores the
previously current context on destruction of the override - for event
synchronize and kernel attribute get this holds for every status of the
wrapped native call, in particular the raising ones; and two nested overrides
restore in LIFO order: destroying the inner override re-installs the outer
target, destroying the outer one restores the original slot. -/
theorem spec_C4_context_restoration :
    ∀ (e : event_t) (k : kernel_t) (st : CUresult) (qr : CUresult × attribute_value_t)
      (c1 c2 : ContextHandle) (slot : CurrentContextSlot),
      (synchronize e st slot).2 = slot ∧
      (kernel_t.get_attribute k qr slot).2 = slot ∧
      scoped_override_destruct
          (scoped_override_construct c2 (scoped_override_construct c1 slot).2).1
          (scoped_override_construct c2 (scoped_override_construct c1 slot).2).2
        = some c1 ∧
      scoped_override_destruct (scoped_override_construct c1 slot).1
          (scoped_override_destruct
            (scoped_override_construct c2 (scoped_override_construct c1 slot).2).1
            (scoped_override_construct c2 (scoped_override_construct c1 slot).2).2)
        = slot := by
  intro e k st qr c1 c2 slot
  refine ⟨rfl, rfl, rfl, rfl⟩

/-- The caller-visible occurrence state of an event (spec section 4.4):
idle (created, never recorded), pending (recorded, not yet reached),
occurred. -/
inductive EventOccurrenceState where
  | idle
  | pending
  | occurred
  deriving DecidableEq, Repr

/-- Modelled from the spec: `cuEventQuery` reports success for an event that
has occurred and also for one never recorded (an unrecorded event is defined
to read as occurred), and the not-ready status for a pending one; the query
does not modify the event state. -/
def cuEventQuery (st : EventOccurrenceState) : CUresult :=
  match st with
  | EventOccurrenceState.pending => CUresult.notReady
  | _ => CUresult.success

/-- `event_t::has_occurred` (event.hpp lines 145-153), as a function of the
status returned by `cuEventQuery` on the event handle: success means true,
not-ready means false, and any other status is raised wrapped in a
`cuda::runtime_error` carrying that status. -/
def event_t.has_occurred (e : event_t) (status : CUresult) : Except CudaError Bool :=
  if status = CUresult.success then Except.ok true
  else if status = CUresult.notReady then Except.ok false
  else Except.error (CudaError.cuStatusError status
    ("Could not determine whether " ++ event_identify e ++ "has already occurred or not."))

/-- `event_t::query` (event.hpp line 159): an alias for `has_occurred`. -/
def event_t.query (e : event_t) (status : CUresult) : Except CudaError Bool :=
  e.has_occurred status

/-- One host-visible query step: the proxy queries the platform about the
occurrence state and interprets the status; the state is read, never
written. -/
def event_t.queryStep (e : event_t) (st : EventOccurrenceState) :
    Except CudaError Bool × EventOccurrenceState :=
  (e.has_occurred (cuEventQuery st), st)

/-- Extracts the native status carried by a raised query fault, if any. -/
def carriedStatus : Except CudaError Bool → Option CUresult
  | Except.error (CudaError.cuStatusError s _) => some s
  | _ => none

/-- Claim C5: `has_occurred`/`query` returns true on the success status, false
on the not-ready status (a valid non-error result), and raises an error
carrying the native status on any other status; a freshly created,
never-recorded (idle) event reads as occurred; and a query step never changes
the event occurrence state. -/
theorem spec_C5_event_query :
    ∀ (e : event_t) (c : Nat) (s : CUresult) (st : EventOccurrenceState),
      e.has_occurred CUresult.success = Except.ok true ∧
      e.has_occurred CUresult.notReady = Except.ok false ∧
      carriedStatus (e.has_occurred (CUresult.errorCode c)) = some (CUresult.errorCode c) ∧
      e.query s = e.has_occurred s ∧
      (event_t.queryStep e EventOccurrenceState.idle).1 = Except.ok true ∧
      (event_t.queryStep e st).2 = st := by
  intro e c s st
  refine ⟨rfl, rfl, rfl, rfl, rfl, rfl⟩

/-- Modelled from the spec: the compiler-side state of an NVRTC program - has
a compile ever been attempted, and which artifacts (bytes) the last compile
produced. `none` means no such artifact exists for this compilation; for the
binary (CUBIN) form, a compile for a virtual-only architecture is reported by
the compiler as a zero-size result, here `some []`. -/
structure NvrtcProgramState where
  compileAttempted : Bool
  ptxData : Option (List Nat)
  cubinData : Option (List Nat)
  nvvmData : Option (List Nat)
  deriving DecidableEq, Repr

/-- Modelled from the spec: `nvrtcGetPTXSize` - the size query returns the
invalid-program status when compilation was never attempted or the artifact
does not exist, and success with the artifact size otherwise. -/
def nvrtcGetPTXSize (w : NvrtcProgramState) : NvrtcStatus × Nat :=
  if w.compileAttempted then
    match w.ptxData with
    | some d => (NvrtcStatus.success, d.length)
    | none => (NvrtcStatus.invalidProgram, 0)
  else (NvrtcStatus.invalidProgram, 0)

/-- Modelled from the spec: `nvrtcGetPTX` - the data fetch fills the caller
buffer with the artifact bytes on success. -/
def nvrtcGetPTX (w : NvrtcProgramState) : NvrtcStatus × List Nat :=
  match w.ptxData with
  | some d => (NvrtcStatus.success, d)
  | none => (NvrtcStatus.invalidProgram, [])

/-- Modelled from the spec: `nvrtcGetCUBINSize`, analogous to the PTX size
query; a compile for a virtual-only architecture reports success with size
zero. -/
def nvrtcGetCUBINSize (w : NvrtcProgramState) : NvrtcStatus × Nat :=
  if w.compileAttempted then
    match w.cubinData with
    | some d => (NvrtcStatus.success, d.length)
    | none => (NvrtcStatus.invalidProgram, 0)
  else (NvrtcStatus.invalidProgram, 0)

/-- Modelled from the spec: `nvrtcGetCUBIN`. -/
def nvrtcGetCUBIN (w : NvrtcProgramState) : NvrtcStatus × List Nat :=
  match w.cubinData with
  | some d => (NvrtcStatus.success, d)
  | none => (NvrtcStatus.invalidProgram, [])

/-- Modelled from the spec: `nvrtcGetNVVMSize`, analogous to the PTX size
query. -/
def nvrtcGetNVVMSize (w : NvrtcProgramState) : NvrtcStatus × Nat :=
  if w.compileAttempted then
    match w.nvvmData with
    | some d => (NvrtcStatus.success, d.length)
    | none => (NvrtcStatus.invalidProgram, 0)
  else (NvrtcStatus.invalidProgram, 0)

/-- Modelled from the spec: `nvrtcGetNVVM`. -/
def nvrtcGetNVVM (w : NvrtcProgramState) : NvrtcStatus × List Nat :=
  match w.nvvmData with
  | some d => (NvrtcStatus.success, d)
  | none => (NvrtcStatus.invalidProgram, [])

/-- `program_t::ptx` (nvrtc/program.hpp lines 107-118): queries the PTX size,
raising on a non-success status; allocates a buffer of that size and fetches
the data, again raising on failure; returns the fetched copy. -/
def program_t.ptx (p : program_t) (w : NvrtcProgramState) : Except CudaError (List Nat) :=
  let sq := nvrtcGetPTXSize w
  match throw_if_error_nvrtc sq.1
      ("Failed obtaining NVRTC program output PTX size for " ++ program_identify p) with
  | Except.error err => Except.error err
  | Except.ok () =>
    let fq := nvrtcGetPTX w
    match throw_if_error_nvrtc fq.1
        ("Failed obtaining NVRTC program output PTX for " ++ program_identify p) with
    | Except.error err => Except.error err
    | Except.ok () => Except.ok fq.2

/-- `program_t::cubin` (nvrtc/program.hpp lines 143-157): queries the CUBIN
size, raising on a non-success status; raises an invalid-argument
(empty-artifact) fault when the reported size is zero (compilation for a
virtual architecture); otherwise fetches and returns the data. -/
def program_t.cubin (p : program_t) (w : NvrtcProgramState) : Except CudaError (List Nat) :=
  let sq := nvrtcGetCUBINSize w
  match throw_if_error_nvrtc sq.1 "Failed obtaining NVRTC program output CUBIN size" with
  | Except.error err => Except.error err
  | Except.ok () =>
    if sq.2 = 0 then
      Except.error (CudaError.invalidArgument
        ("CUBIN requested for a CUDA program compiled for a virtual architecture: "
          ++ program_identify p))
    else
      let fq := nvrtcGetCUBIN w
      match throw_if_error_nvrtc fq.1
          ("Failed obtaining NVRTC program output CUBIN for" ++ program_identify p) with
      | Except.error err => Except.error err
      | Except.ok () => Except.ok fq.2

/-- `program_t::nvvm` (nvrtc/program.hpp lines 175-184): queries the NVVM size
and fetches the data, raising on any non-success status. -/
def program_t.nvvm (_p : program_t) (w : NvrtcProgramState) : Except CudaError (List Nat) :=
  let sq := nvrtcGetNVVMSize w
  match throw_if_error_nvrtc sq.1 "Failed obtaining NVRTC program output NVVM size" with
  | Except.error err => Except.error err
  | Except.ok () =>
    let fq := nvrtcGetNVVM w
    match throw_if_error_nvrtc fq.1 "Failed obtaining NVRTC program output NVVM" with
    | Except.error err => Except.error err
    | Except.ok () => Except.ok fq.2

/-- `program_t::has_ptx` (nvrtc/program.hpp lines 120-132): queries only the
PTX size; returns false on the invalid-program status, raises on any other
non-success status, raises a logic error on a zero reported size, and returns
true otherwise. -/
def program_t.has_ptx (p : program_t) (w : NvrtcProgramState) : Except CudaError Bool :=
  let sq := nvrtcGetPTXSize w
  if sq.1 = NvrtcStatus.invalidProgram then Except.ok false
  else
    match throw_if_error_nvrtc sq.1
        ("Failed determining whether the NVRTC program has a compiled PTX result: "
          ++ program_identify p) with
    | Except.error err => Except.error err
    | Except.ok () =>
      if sq.2 = 0 then
        Except.error (CudaError.logicError
          ("PTX size reported as 0 by NVRTC for program: " ++ program_identify p))
      else Except.ok true

/-- `program_t::has_cubin` (nvrtc/program.hpp lines 159-167): queries only the
CUBIN size; returns false on the invalid-program status, raises on any other
non-success status, and otherwise returns whether the reported size is
positive. -/
def program_t.has_cubin (p : program_t) (w : NvrtcProgramState) : Except CudaError Bool :=
  let sq := nvrtcGetCUBINSize w
  if sq.1 = NvrtcStatus.invalidProgram then Except.ok false
  else
    match throw_if_error_nvrtc sq.1
        ("Failed determining whether the NVRTC program has a compiled CUBIN result: "
          ++ program_identify p) with
    | Except.error err => Except.error err
    | Except.ok () => Except.ok (decide (0 < sq.2))

/-- `program_t::has_nvvm` (nvrtc/program.hpp lines 186-198): queries only the
NVVM size; returns false on the invalid-program status, raises on any other
non-success status, raises a logic error on a zero reported size, and returns
true otherwise. -/
def program_t.has_nvvm (p : program_t) (w : NvrtcProgramState) : Except CudaError Bool :=
  let sq := nvrtcGetNVVMSize w
  if sq.1 = NvrtcStatus.invalidProgram then Except.ok false
  else
    match throw_if_error_nvrtc sq.1
        ("Failed determining whether the NVRTC program has a compiled NVVM result: "
          ++ program_identify p) with
    | Except.error err => Except.error err
    | Except.ok () =>
      if sq.2 = 0 then
        Except.error (CudaError.logicError
          ("NVVM size reported as 0 by NVRTC for program: " ++ program_identify p))
      else Except.ok true

/-- True iff the operation raised a fault. -/
def raised {α : Type} : Except CudaError α → Bool
  | Except.error _ => true
  | Except.ok _ => false

/-- Claim C6: every artifact accessor fails before any compile attempt; the
CUBIN accessor fails with the empty-artifact (invalid-argument) fault exactly
when the size query succeeds reporting size zero; and on success it returns a
copy of the artifact bytes whose length is the reported size. -/
theorem spec_C6_artifact_access :
    ∀ (p : program_t) (w wE wS : NvrtcProgramState),
      (w.compileAttempted = false →
        raised (p.ptx w) = true ∧ raised (p.cubin w) = true ∧ raised (p.nvvm w) = true) ∧
      ((∃ msg, p.cubin wE = Except.error (CudaError.invalidArgument msg)) ↔
        ((nvrtcGetCUBINSize wE).1 = NvrtcStatus.success ∧ (nvrtcGetCUBINSize wE).2 = 0)) ∧
      (∀ d, wS.compileAttempted = true → wS.cubinData = some d → d ≠ [] →
        p.cubin wS = Except.ok d ∧ d.length = (nvrtcGetCUBINSize wS).2) := by
  intro p w wE wS
  refine ⟨?_, ?_, ?_⟩
  · intro h
    refine ⟨?_, ?_, ?_⟩ <;>
      simp [program_t.ptx, program_t.cubin, program_t.nvvm, nvrtcGetPTXSize,
        nvrtcGetCUBINSize, nvrtcGetNVVMSize, h, throw_if_error_nvrtc, raised]
  · constructor
    · rintro ⟨msg, hmsg⟩
      by_cases hc : wE.compileAttempted
      · rcases hd : wE.cubinData with _ | d
        · simp [program_t.cubin, nvrtcGetCUBINSize, hc, hd, throw_if_error_nvrtc] at hmsg
        · by_cases hz : d.length = 0
          · simp [nvrtcGetCUBINSize, hc, hd, hz]
          · simp [program_t.cubin, nvrtcGetCUBINSize, nvrtcGetCUBIN, hc, hd, hz,
              throw_if_error_nvrtc] at hmsg
      · simp [program_t.cubin, nvrtcGetCUBINSize, hc, throw_if_error_nvrtc] at hmsg
    · rintro ⟨hs, hz⟩
      refine ⟨"CUBIN requested for a CUDA program compiled for a virtual architecture: "
        ++ program_identify p, ?_⟩
      simp [program_t.cubin, hs, hz, throw_if_error_nvrtc]
  · intro d hc hd hne
    have hlen : d.length ≠ 0 := by
      intro h0
      exact hne (List.eq_nil_of_length_eq_zero h0)
    constructor
    · simp [program_t.cubin, nvrtcGetCUBINSize, nvrtcGetCUBIN, hc, hd, hlen,
        throw_if_error_nvrtc]
    · simp [nvrtcGetCUBINSize, hc, hd]

/-- Witness for claim C6: a never-compiled program state, a compiled state
whose CUBIN is reported with size zero, and a compiled state with a one-byte
CUBIN. -/
theorem spec_C6_artifact_access_witness :
    raised (program_t.ptx { handle_ := 0, name_ := "prog", owning_ := true }
        { compileAttempted := false, ptxData := none, cubinData := none, nvvmData := none })
      = true ∧
    (∃ msg, program_t.cubin { handle_ := 0, name_ := "prog", owning_ := true }
        { compileAttempted := true, ptxData := some [1], cubinData := some [],
          nvvmData := none }
      = Except.error (CudaError.invalidArgument msg)) ∧
    program_t.cubin { handle_ := 0, name_ := "prog", owning_ := true }
        { compileAttempted := true, ptxData := some [1], cubinData := some [7],
          nvvmData := none }
      = Except.ok [7] := by
  have h := spec_C6_artifact_access { handle_ := 0, name_ := "prog", owning_ := true }
    { compileAttempted := false, ptxData := none, cubinData := none, nvvmData := none }
    { compileAttempted := true, ptxData := some [1], cubinData := some [], nvvmData := none }
    { compileAttempted := true, ptxData := some [1], cubinData := some [7], nvvmData := none }
  exact ⟨(h.1 rfl).1, h.2.1.mpr ⟨rfl, rfl⟩, (h.2.2 [7] rfl rfl (by simp)).1⟩

/-- Claim C7: each artifact-presence probe consults only the size query (worlds
with equal size-query results get equal probe results, regardless of the
artifact data), and when the size query reports the no-such-artifact
(invalid-program) status the probe returns false rather than raising; for the
CUBIN probe, a successful size query reporting zero likewise yields false. -/
theorem spec_C7_artifact_probes :
    ∀ (p : program_t) (w wq wz : NvrtcProgramState),
      ((nvrtcGetPTXSize w).1 = NvrtcStatus.invalidProgram → p.has_ptx w = Except.ok false) ∧
      ((nvrtcGetCUBINSize w).1 = NvrtcStatus.invalidProgram → p.has_cubin w = Except.ok false) ∧
      ((nvrtcGetNVVMSize w).1 = NvrtcStatus.invalidProgram → p.has_nvvm w = Except.ok false) ∧
      ((nvrtcGetCUBINSize wz).1 = NvrtcStatus.success → (nvrtcGetCUBINSize wz).2 = 0 →
        p.has_cubin wz = Except.ok false) ∧
      (nvrtcGetPTXSize w = nvrtcGetPTXSize wq → p.has_ptx w = p.has_ptx wq) ∧
      (nvrtcGetCUBINSize w = nvrtcGetCUBINSize wq → p.has_cubin w = p.has_cubin wq) ∧
      (nvrtcGetNVVMSize w = nvrtcGetNVVMSize wq → p.has_nvvm w = p.has_nvvm wq) := by
  intro p w wq wz
  refine ⟨?_, ?_, ?_, ?_, ?_, ?_, ?_⟩
  · intro h; simp [program_t.has_ptx, h]
  · intro h; simp [program_t.has_cubin, h]
  · intro h; simp [program_t.has_nvvm, h]
  · intro hs hz; simp [program_t.has_cubin, hs, hz, throw_if_error_nvrtc]
  · intro h; simp only [program_t.has_ptx, h]
  · intro h; simp only [program_t.has_cubin, h]
  · intro h; simp only [program_t.has_nvvm, h]

/-- Witness for claim C7: a never-compiled state and a second one with equal
size-query results, plus a compiled state whose CUBIN size is reported as
zero. -/
theorem spec_C7_artifact_probes_witness :
    program_t.has_ptx { handle_ := 0, name_ := "prog", owning_ := true }
        { compileAttempted := false, ptxData := none, cubinData := none, nvvmData := none }
      = Except.ok false ∧
    program_t.has_cubin { handle_ := 0, name_ := "prog", owning_ := true }
        { compileAttempted := true, ptxData := some [1], cubinData := some [],
          nvvmData := none }
      = Except.ok false := by
  have h := spec_C7_artifact_probes { handle_ := 0, name_ := "prog", owning_ := true }
    { compileAttempted := false, ptxData := none, cubinData := none, nvvmData := none }
    { compileAttempted := false, ptxData := some [], cubinData := none, nvvmData := none }
    { compileAttempted := true, ptxData := some [1], cubinData := some [], nvvmData := none }
  refine ⟨h.1 rfl, h.2.2.2.1 rfl rfl⟩

/-- The operations that mutate the wrapped resource state but not the proxy
object itself, named by claim C8. -/
inductive WrappedMutatingOp where
  | compileOp
  | registerNameForLookup
  | setAttributeOp
  | setCachePreference
  | setSharedMemoryBankSize
  deriving DecidableEq, Repr

/-- Translated from the member-function declarations: `program_t::compile` is
declared const (nvrtc/program.hpp line 226) and `kernel_t::set_attribute` is
declared const (kernel.hpp line 161), but
`program_t::register_name_for_lookup` (nvrtc/program.hpp lines 275, 281),
`kernel_t::set_cache_preference` (kernel.hpp line 202) and
`kernel_t::set_shared_memory_bank_size` (kernel.hpp line 216) are not
const-qualified. -/
def constQualified : WrappedMutatingOp → Bool
  | WrappedMutatingOp.compileOp => true
  | WrappedMutatingOp.registerNameForLookup => false
  | WrappedMutatingOp.setAttributeOp => true
  | WrappedMutatingOp.setCachePreference => false
  | WrappedMutatingOp.setSharedMemoryBankSize => false

/-- `program_t::compile(span<const char*>)` (nvrtc/program.hpp lines 226-230):
invokes `nvrtcCompileProgram` (status given as argument) and raises on
failure; no member of the proxy is written. Returns (fault or unit, the proxy
after the call). -/
def program_t.compile (p : program_t) (compileStatus : NvrtcStatus) :
    Except CudaError Unit × program_t :=
  (throw_if_error_nvrtc compileStatus
    ("Failed compiling program \x22" ++ p.name_ ++ "\x22"), p)

/-- `program_t::register_name_for_lookup` (nvrtc/program.hpp lines 275-279):
invokes `nvrtcAddNameExpression` and raises on failure; no member of the
proxy is written. -/
def program_t.register_name_for_lookup (p : program_t) (status : NvrtcStatus) :
    Except CudaError Unit × program_t :=
  (throw_if_error_nvrtc status
    ("Failed registering a mangled name with program \x22" ++ p.name_ ++ "\x22"), p)

/-- `kernel_t::set_cache_preference` (kernel.hpp lines 202-209): installs the
kernel context via a scoped override, calls `cuFuncSetCacheConfig` (status
given as argument) and raises on failure; no member of the proxy is written.
Returns (fault or unit, proxy after call, slot after return). -/
def kernel_t.set_cache_preference (k : kernel_t) (status : CUresult)
    (slot : CurrentContextSlot) :
    Except CudaError Unit × kernel_t × CurrentContextSlot :=
  let oc := scoped_override_construct k.context_handle_ slot
  (throw_if_error status
      ("Setting the multiprocessor L1/Shared Memory cache distribution preference for a "
        ++ "CUDA device function"),
    k, scoped_override_destruct oc.1 oc.2)

/-- `kernel_t::set_shared_memory_bank_size` (kernel.hpp lines 216-222):
installs the kernel context via a scoped override, calls
`cuFuncSetSharedMemConfig` and raises on failure; no member of the proxy is
written. -/
def kernel_t.set_shared_memory_bank_size (k : kernel_t) (status : CUresult)
    (slot : CurrentContextSlot) :
    Except CudaError Unit × kernel_t × CurrentContextSlot :=
  let oc := scoped_override_construct k.context_handle_ slot
  (throw_if_error status "Failed setting the shared memory bank size",
    k, scoped_override_destruct oc.1 oc.2)

/-- Modelled from the spec: `kernel_t::set_attribute` is declared const in
kernel.hpp line 161 but its body lies outside the analyzed sources; per the
contract it installs the kernel context, sets the attribute on the platform
and raises on a failure status, leaving the proxy fields untouched. -/
def kernel_t.set_attribute (k : kernel_t) (status : CUresult)
    (slot : CurrentContextSlot) :
    Except CudaError Unit × kernel_t × CurrentContextSlot :=
  let oc := scoped_override_construct k.context_handle_ slot
  (throw_if_error status "Setting a CUDA device function attribute",
    k, scoped_override_destruct oc.1 oc.2)

/-- Claim C8 (counterexample): not every resource-state-mutating operation is
const-qualified on the proxy - `register_name_for_lookup`,
`set_cache_preference` and `set_shared_memory_bank_size` are declared without
const. -/
theorem spec_C8_counterexample :
    ¬ (∀ op : WrappedMutatingOp, constQualified op = true) := by
  intro h
  exact absurd (h WrappedMutatingOp.registerNameForLookup) (by decide)

/-- Claim C8 (amended): `compile` and `set_attribute` are const-qualified while
`register_name_for_lookup`, `set_cache_preference` and
`set_shared_memory_bank_size` are not; nevertheless every one of these
operations leaves all fields of the proxy object itself (handle, name, device
id, context handle, owning flag) unchanged, for every status of the native
call. -/
theorem spec_C8_proxy_unchanged :
    ∀ (p : program_t) (k : kernel_t) (ns : NvrtcStatus) (cs : CUresult)
      (slot : CurrentContextSlot),
      constQualified WrappedMutatingOp.compileOp = true ∧
      constQualified WrappedMutatingOp.setAttributeOp = true ∧
      constQualified WrappedMutatingOp.registerNameForLookup = false ∧
      constQualified WrappedMutatingOp.setCachePreference = false ∧
      constQualified WrappedMutatingOp.setSharedMemoryBankSize = false ∧
      (p.compile ns).2 = p ∧
      (p.register_name_for_lookup ns).2 = p ∧
      (k.set_cache_preference cs slot).2.1 = k ∧
      (k.set_shared_memory_bank_size cs slot).2.1 = k ∧
      (k.set_attribute cs slot).2.1 = k := by
  intro p k ns cs slot
  refine ⟨rfl, rfl, rfl, rfl, rfl, rfl, rfl, rfl, rfl, rfl⟩

/-- A count of blocks in a grid - a distinct semantic type
(`grid::dimension_t`). -/
structure grid_dimension_t where
  val : Nat
  deriving DecidableEq, Repr

/-- A count of threads in a block - a distinct semantic type
(`grid::block_dimension_t`). -/
structure block_dimension_t where
  val : Nat
  deriving DecidableEq, Repr

/-- `grid::complete_dimensions_t`: a grid dimension count paired with a block
dimension count, typed distinctly. -/
structure complete_dimensions_t where
  grid : grid_dimension_t
  block : block_dimension_t
  deriving DecidableEq, Repr

/-- The occupancy flag passed to the platform
(`CU_OCCUPANCY_DISABLE_CACHING_OVERRIDE` / `CU_OCCUPANCY_DEFAULT`). -/
inductive OccupancyFlag where
  | defaultFlag
  | disableCachingOverride
  deriving DecidableEq, Repr

/-- Translated from kernel.hpp line 322: the flag argument handed to the
platform is the caching-disable flag exactly when `disable_caching_override`
holds, and the default flag otherwise. -/
def occupancy_flags (disable_caching_override : Bool) : OccupancyFlag :=
  if disable_caching_override then OccupancyFlag.disableCachingOverride
  else OccupancyFlag.defaultFlag

/-- Modelled from the spec: the platform data the occupancy heuristic draws
on - the maximum threads per block the kernel attribute reports, and the
multiprocessor count determining how many blocks saturate the device. -/
structure OccupancyOracle where
  maxThreadsPerBlock : Nat
  multiprocessorCount : Nat
  deriving DecidableEq, Repr

/-- Modelled from the spec: `cuOccupancyMaxPotentialBlockSizeWithFlags`
suggests a block size achieving maximum occupancy - never above the block
size limit when the limit is positive, and never above the maximum threads
per block the kernel supports (a zero limit means no limit) - together with
the minimum grid size saturating the device. -/
def cuOccupancyMaxPotentialBlockSizeWithFlags (oracle : OccupancyOracle)
    (blockSizeLimit : Nat) (_flag : OccupancyFlag) : CUresult × Nat × Nat :=
  let cap := if blockSizeLimit = 0 then oracle.maxThreadsPerBlock
             else min blockSizeLimit oracle.maxThreadsPerBlock
  (CUresult.success, oracle.multiprocessorCount, cap)

/-- `kernel_t::maximum_threads_per_block` (kernel.hpp lines 141-144) reads the
max-threads-per-block attribute; in this model the platform reports it from
the same oracle that drives the occupancy computation. -/
def kernel_t.maximum_threads_per_block (_k : kernel_t) (oracle : OccupancyOracle) : Nat :=
  oracle.maxThreadsPerBlock

/-- `kernel::occupancy::detail_::min_grid_params_for_max_occupancy`
(kernel.hpp lines 300-330): calls the platform heuristic with the limit
passed through unchanged and the flag derived from the caching-override
argument, raises on a failure status, and types the two outputs distinctly as
a grid dimension and a block dimension, in that order. -/
def min_grid_params_for_max_occupancy_in_detail (oracle : OccupancyOracle)
    (block_size_limit : Nat) (disable_caching_override : Bool) :
    Except CudaError complete_dimensions_t :=
  let r := cuOccupancyMaxPotentialBlockSizeWithFlags oracle block_size_limit
    (occupancy_flags disable_caching_override)
  match throw_if_error r.1
      ("Failed obtaining parameters for a minimum-size grid for the kernel "
        ++ "with maximum occupancy given dynamic shared memory and block size data") with
  | Except.error err => Except.error err
  | Except.ok () => Except.ok { grid := { val := r.2.1 }, block := { val := r.2.2 } }

/-- `kernel_t::min_grid_params_for_max_occupancy` (kernel.hpp lines 422-429
via lines 386-395): forwards handle, limit and caching-override flag to the
detail function; the dynamic shared memory size is marshalled to the platform
and does not affect which limit is enforced. -/
def kernel_t.min_grid_params_for_max_occupancy (_k : kernel_t) (oracle : OccupancyOracle)
    (_dynamic_shared_memory_size : Nat) (block_size_limit : Nat)
    (disable_caching_override : Bool) : Except CudaError complete_dimensions_t :=
  min_grid_params_for_max_occupancy_in_detail oracle block_size_limit
    disable_caching_override

/-- Claim C9: when the returned computation succeeds, the block size is at most
the limit whenever the limit is positive, and at most the maximum threads per
block of the kernel when the limit is zero (no limit); the grid count and
block size occupy the distinctly-typed components in order (no
transposition); and the caching-disable flag is handed to the platform
exactly when the caching-override argument is true. -/
theorem spec_C9_occupancy_bounds :
    ∀ (k : kernel_t) (oracle : OccupancyOracle) (dsm L : Nat) (b : Bool)
      (res : complete_dimensions_t),
      (kernel_t.min_grid_params_for_max_occupancy k oracle dsm L b = Except.ok res →
        (0 < L → res.block.val ≤ L) ∧
        (L = 0 → res.block.val ≤ kernel_t.maximum_threads_per_block k oracle) ∧
        res.grid.val
          = (cuOccupancyMaxPotentialBlockSizeWithFlags oracle L (occupancy_flags b)).2.1 ∧
        res.block.val
          = (cuOccupancyMaxPotentialBlockSizeWithFlags oracle L (occupancy_flags b)).2.2) ∧
      (occupancy_flags b = OccupancyFlag.disableCachingOverride ↔ b = true) := by
  intro k oracle dsm L b res
  constructor
  · intro hok
    have hres : res =
        complete_dimensions_t.mk (grid_dimension_t.mk oracle.multiprocessorCount)
          (block_dimension_t.mk
            (if L = 0 then oracle.maxThreadsPerBlock else min L oracle.maxThreadsPerBlock)) := by
      simp [kernel_t.min_grid_params_for_max_occupancy,
        min_grid_params_for_max_occupancy_in_detail,
        cuOccupancyMaxPotentialBlockSizeWithFlags, throw_if_error] at hok
      exact hok.symm
    subst hres
    refine ⟨?_, ?_, ?_, ?_⟩
    · intro hL
      have hL0 : L ≠ 0 := Nat.pos_iff_ne_zero.mp hL
      simp [hL0]
    · intro hL0
      simp [hL0, kernel_t.maximum_threads_per_block]
    · simp [cuOccupancyMaxPotentialBlockSizeWithFlags]
    · simp [cuOccupancyMaxPotentialBlockSizeWithFlags]
  · cases b <;> simp [occupancy_flags]

/-- Witness for claim C9 at a concrete kernel, oracle and limit. -/
theorem spec_C9_occupancy_bounds_witness :
    ((kernel_t.min_grid_params_for_max_occupancy
        { device_id_ := 0, context_handle_ := 1, handle_ := 2 }
        { maxThreadsPerBlock := 1024, multiprocessorCount := 36 } 0 256 true
      = Except.ok { grid := { val := 36 }, block := { val := 256 } }) ∧
      (0 < 256 → (256 : Nat) ≤ 256)) ∧
    occupancy_flags true = OccupancyFlag.disableCachingOverride := by
  have h := spec_C9_occupancy_bounds
    { device_id_ := 0, context_handle_ := 1, handle_ := 2 }
    { maxThreadsPerBlock := 1024, multiprocessorCount := 36 } 0 256 true
    { grid := { val := 36 }, block := { val := 256 } }
  have hok : kernel_t.min_grid_params_for_max_occupancy
      { device_id_ := 0, context_handle_ := 1, handle_ := 2 }
      { maxThreadsPerBlock := 1024, multiprocessorCount := 36 } 0 256 true
    = Except.ok { grid := { val := 36 }, block := { val := 256 } } := by rfl
  exact ⟨⟨hok, fun h256 => (h.1 hok).1 h256⟩, h.2.mpr rfl⟩

/-- The result of running a program-creation factory: the constructed proxy
together with the text that was handed to `nvrtcCreateProgram` as the program
source. -/
structure created_program_t where
  proxy : program_t
  source_text : String
  deriving DecidableEq, Repr

/-- The public `program_t` constructor (nvrtc/program.hpp lines 294-305): sets
`name_` from its first (`program_name`) parameter, marks the proxy owning,
and passes its second (`cuda_source`) parameter to `nvrtcCreateProgram` as
the source text. -/
def program_t.construct (program_name cuda_source : String) (h : Handle) :
    created_program_t :=
  { proxy := { handle_ := h, name_ := program_name, owning_ := true }
    source_text := cuda_source }

/-- `program::create` taking header-name and header-source spans
(nvrtc/program.hpp lines 335-342): forwards `program_name` and `cuda_source`
to the constructor in that order. -/
def program.create_with_header_spans (program_name cuda_source : String) (h : Handle) :
    created_program_t :=
  program_t.construct program_name cuda_source h

/-- `program::create` taking header-name and header-source iterators
(nvrtc/program.hpp lines 344-360): the `program_t` initializer at line 359
lists `cuda_source` first and `program_name` second - the opposite of the
constructor parameter order. -/
def program.create_with_header_iterators (program_name cuda_source : String) (h : Handle) :
    created_program_t :=
  program_t.construct cuda_source program_name h

/-- `program::create_` taking pair iterators (nvrtc/program.hpp lines
362-379): the initializer at line 378 likewise lists `cuda_source` first. -/
def program.create_underscore_with_header_pairs (program_name cuda_source : String)
    (h : Handle) : created_program_t :=
  program_t.construct cuda_source program_name h

/-- `program::create` with no headers (nvrtc/program.hpp lines 395-398):
forwards in constructor order. -/
def program.create_no_headers (program_name cuda_source : String) (h : Handle) :
    created_program_t :=
  program_t.construct program_name cuda_source h

/-- Claim C10: evaluation of the iterator-based `program::create` overload at a
concrete call: the returned proxy is owning, but its name is the
`cuda_source` argument and its source text is the `program_name` argument -
the two arguments are interchanged, while the span and no-header overloads
keep them in order. -/
theorem spec_C10_factory_name_swap :
    (program.create_with_header_iterators "my_prog" "kernel source text" 5).proxy.name_
        = "kernel source text" ∧
    (program.create_with_header_iterators "my_prog" "kernel source text" 5).source_text
        = "my_prog" ∧
    (program.create_with_header_iterators "my_prog" "kernel source text" 5).proxy.owning_
        = true ∧
    (program.create_with_header_spans "my_prog" "kernel source text" 5).proxy.name_
        = "my_prog" ∧
    (program.create_no_headers "my_prog" "kernel source text" 5).proxy.name_
        = "my_prog" := by
  refine ⟨rfl, rfl, rfl, rfl, rfl⟩

end CudaApiWrappers
